import Mathlib

/-!
Verification development for the 3D-Curve-Distortion repository.

The repository contains two variants of the same rendering engine:
`src/components/BendBoxEngine.ts` (the component variant, suffix `C` below)
and the inlined engine of `src/flat.tsx` (the flat variant, suffix `F`
below, which additionally carries a `loadMediaRequestId` supersession
check).  Shader arithmetic is modelled over `ℚ`; the transcendental GLSL
primitives (`sin`, `cos`, `sqrt`) are uninterpreted parameters collected
in `GlslPrims`, since none of the verified properties depend on their
values.  DOM/GPU side effects (texture disposal, object-URL revocation,
observer disconnection, ...) are modelled as explicit event logs and
counters in the engine state.
-/

/-- Media source supplied by the caller, `string | File` in the source
(`BendBoxProps.mediaSource`).  A `File` is identified by its declared MIME
type and an identity token: JavaScript `!==` compares `File` objects by
reference, which the identity token models; strings compare by value. -/
inductive Src where
  | url (u : String)
  | file (mime : String) (ident : Nat)
deriving DecidableEq, Repr

/-- Translation of `const isVideo = (url) => /\.(mp4|webm|mov)$/i.test(url)`
(`BendBoxEngine.ts:102`, `flat.tsx:714`): the regex matches exactly when the
URL, compared case-insensitively, ends with one of the three literal
suffixes `.mp4`, `.webm`, `.mov`. -/
def isVideo (url : String) : Bool :=
  (url.toLower).endsWith ".mp4" || (url.toLower).endsWith ".webm" || (url.toLower).endsWith ".mov"

/-- Translation of the classification at `BendBoxEngine.ts:232` /
`flat.tsx:841`:
`mediaSource instanceof File ? mediaSource.type.startsWith('video/') : isVideo(sourceUrl)`. -/
def isVideoSource : Src → Bool
  | .file mime _ => mime.startsWith "video/"
  | .url u => isVideo u

/-- The video extension set named by the spec's classification rule. -/
def specVideoExtensions : List String := ["mp4", "webm", "mov"]

/-- Modelled from the spec's words (for comparison with `isVideoSource`):
"file extensions `.mp4`, `.webm`, `.mov` (case-insensitive) on URL sources
classify as video; all other extensions/URLs classify as image; for
file-handle sources, the declared MIME type prefix `video/` classifies as
video." -/
def classifiedAsVideoSpec : Src → Prop
  | .url u => ∃ e ∈ specVideoExtensions, (u.toLower).endsWith ("." ++ e)
  | .file mime _ => mime.startsWith "video/" = true

/-- C6: a URL source is classified as video iff its lower-cased form ends in
one of `.mp4`, `.webm`, `.mov`; every other URL classifies as image; a
file-handle source is classified as video iff its declared MIME type starts
with `video/`. -/
theorem c6_media_classification (src : Src) :
    isVideoSource src = true ↔ classifiedAsVideoSpec src := by
  cases src with
  | url u =>
      simp only [isVideoSource, isVideo, classifiedAsVideoSpec, specVideoExtensions,
        Bool.or_eq_true, List.mem_cons, List.mem_singleton, List.not_mem_nil, or_false]
      constructor
      · rintro ((h | h) | h)
        · exact ⟨"mp4", Or.inl rfl, h⟩
        · exact ⟨"webm", Or.inr (Or.inl rfl), h⟩
        · exact ⟨"mov", Or.inr (Or.inr rfl), h⟩
      · rintro ⟨e, (rfl | rfl | rfl), h⟩
        · exact Or.inl (Or.inl h)
        · exact Or.inl (Or.inr h)
        · exact Or.inr h
  | file mime ident =>
      simp [isVideoSource, classifiedAsVideoSpec]

/-! ## Shader model

GLSL float arithmetic is modelled over `ℚ`.  The transcendental builtins
`sin`, `cos`, `sqrt` are taken as an uninterpreted parameter record
`GlslPrims`; every theorem below holds for all interpretations of these
primitives, in particular for the real ones. -/

/-- 2D vector of shader scalars. -/
structure Vec2 where
  x : ℚ
  y : ℚ
deriving DecidableEq, Repr

/-- 3D vector of shader scalars. -/
structure Vec3 where
  x : ℚ
  y : ℚ
  z : ℚ
deriving DecidableEq, Repr

/-- Uninterpreted GLSL transcendental primitives. -/
structure GlslPrims where
  sinQ : ℚ → ℚ
  cosQ : ℚ → ℚ
  sqrtQ : ℚ → ℚ

/-- GLSL `clamp(x, lo, hi)`. -/
def clampQ (x lo hi : ℚ) : ℚ := min (max x lo) hi

/-- GLSL `smoothstep(e0, e1, x)`. -/
def smoothstep (e0 e1 x : ℚ) : ℚ :=
  let t := clampQ ((x - e0) / (e1 - e0)) 0 1
  t * t * (3 - 2 * t)

/-- GLSL `fract(x) = x - floor(x)`. -/
def fractQ (x : ℚ) : ℚ := x - (⌊x⌋ : ℚ)

/-- Shader helper `mod289(x) = x - floor(x * (1.0/289.0)) * 289.0`
(`BendBoxEngine.ts:5-6`), scalar form, applied componentwise below. -/
def mod289 (x : ℚ) : ℚ := x - (⌊x * (1 / 289)⌋ : ℚ) * 289

/-- Shader helper `permute(x) = mod289(((x*34.0)+1.0)*x)`
(`BendBoxEngine.ts:7`), scalar form. -/
def permute (x : ℚ) : ℚ := mod289 ((x * 34 + 1) * x)

/-- Translation of `snoise` (`BendBoxEngine.ts:9-31`), the 2D simplex-noise
evaluator, written with explicit components.  All operations used by the
source (`floor`, `fract`, `abs`, `max`, arithmetic) are exact on `ℚ`. -/
def snoise (v : Vec2) : ℚ :=
  let Cx : ℚ := 0.211324865405187
  let Cy : ℚ := 0.366025403784439
  let Cz : ℚ := -0.577350269189626
  let Cw : ℚ := 0.024390243902439
  -- i = floor(v + dot(v, C.yy))
  let dvy := (v.x + v.y) * Cy
  let ix : ℚ := (⌊v.x + dvy⌋ : ℚ)
  let iy : ℚ := (⌊v.y + dvy⌋ : ℚ)
  -- x0 = v - i + dot(i, C.xx)
  let dix := (ix + iy) * Cx
  let x0x := v.x - ix + dix
  let x0y := v.y - iy + dix
  -- i1 = (x0.x > x0.y) ? vec2(1,0) : vec2(0,1)
  let i1x : ℚ := if x0x > x0y then 1 else 0
  let i1y : ℚ := if x0x > x0y then 0 else 1
  -- x12 = x0.xyxy + C.xxzz; x12.xy -= i1
  let x12x := x0x + Cx - i1x
  let x12y := x0y + Cx - i1y
  let x12z := x0x + Cz
  let x12w := x0y + Cz
  -- i = mod289(i)
  let mix := mod289 ix
  let miy := mod289 iy
  -- p = permute(permute(i.y + vec3(0, i1.y, 1)) + i.x + vec3(0, i1.x, 1))
  let p0 := permute (permute (miy + 0) + mix + 0)
  let p1 := permute (permute (miy + i1y) + mix + i1x)
  let p2 := permute (permute (miy + 1) + mix + 1)
  -- m = max(0.5 - vec3(dot(x0,x0), dot(x12.xy,x12.xy), dot(x12.zw,x12.zw)), 0.0)
  let m0 := max (1/2 - (x0x * x0x + x0y * x0y)) 0
  let m1 := max (1/2 - (x12x * x12x + x12y * x12y)) 0
  let m2 := max (1/2 - (x12z * x12z + x12w * x12w)) 0
  -- m = m*m; m = m*m
  let m0' := (m0 * m0) * (m0 * m0)
  let m1' := (m1 * m1) * (m1 * m1)
  let m2' := (m2 * m2) * (m2 * m2)
  -- x = 2.0 * fract(p * C.www) - 1.0
  let xx0 := 2 * fractQ (p0 * Cw) - 1
  let xx1 := 2 * fractQ (p1 * Cw) - 1
  let xx2 := 2 * fractQ (p2 * Cw) - 1
  -- h = abs(x) - 0.5
  let h0 := |xx0| - 1/2
  let h1 := |xx1| - 1/2
  let h2 := |xx2| - 1/2
  -- ox = floor(x + 0.5); a0 = x - ox
  let a00 := xx0 - (⌊xx0 + 1/2⌋ : ℚ)
  let a01 := xx1 - (⌊xx1 + 1/2⌋ : ℚ)
  let a02 := xx2 - (⌊xx2 + 1/2⌋ : ℚ)
  -- m *= 1.79284291400159 - 0.85373472095314 * (a0*a0 + h*h)
  let n0 := m0' * (1.79284291400159 - 0.85373472095314 * (a00 * a00 + h0 * h0))
  let n1 := m1' * (1.79284291400159 - 0.85373472095314 * (a01 * a01 + h1 * h1))
  let n2 := m2' * (1.79284291400159 - 0.85373472095314 * (a02 * a02 + h2 * h2))
  -- g.x = a0.x*x0.x + h.x*x0.y; g.yz = a0.yz*x12.xz + h.yz*x12.yw
  let g0 := a00 * x0x + h0 * x0y
  let g1 := a01 * x12x + h1 * x12y
  let g2 := a02 * x12z + h2 * x12w
  130 * (n0 * g0 + n1 * g1 + n2 * g2)

/-- Uniforms consumed by the vertex stage. -/
structure Uniforms where
  uTime : ℚ
  uFlow : ℚ
  uLens : ℚ
  uPinch : ℚ
  uScale : ℚ
deriving DecidableEq, Repr

/-- Translation of the vertex-shader `main` body (`BendBoxEngine.ts:46-61`)
up to the displaced local position (the final model-view-projection
multiply is not part of the verified claims).  GLSL `mat2(c,-s,s,c)` is
column-major, so `mat2(c,-s,s,c) * v = (c*v.x + s*v.y, -s*v.x + c*v.y)`. -/
def vertexMain (P : GlslPrims) (u : Uniforms) (position : Vec3) (uv : Vec2) : Vec3 :=
  let centeredUvX := uv.x - 1/2
  let centeredUvY := uv.y - 1/2
  -- pos.xy *= uScale
  let p1x := position.x * u.uScale
  let p1y := position.y * u.uScale
  -- dist = length(centeredUv)
  let dist := P.sqrtQ (centeredUvX * centeredUvX + centeredUvY * centeredUvY)
  -- lensEffect = uLens * pow(dist, 2.0); pos.xy *= 1.0 - lensEffect
  let lensEffect := u.uLens * (dist * dist)
  let p2x := p1x * (1 - lensEffect)
  let p2y := p1y * (1 - lensEffect)
  -- angle = uPinch * smoothstep(0.0, 0.7, dist); pos.xy = rotate(angle) * pos.xy
  let twistFactor := smoothstep 0 (7/10) dist
  let angle := u.uPinch * twistFactor
  let s := P.sinQ angle
  let c := P.cosQ angle
  let p3x := c * p2x + s * p2y
  let p3y := -s * p2x + c * p2y
  -- noise = snoise(vUv * 3.0 + uTime * 0.2); pos.z += noise * uFlow
  let noise := snoise ⟨uv.x * 3 + u.uTime * (1/5), uv.y * 3 + u.uTime * (1/5)⟩
  ⟨p3x, p3y, position.z + noise * u.uFlow⟩

/-- Distance of a UV from the plane centre, `length(uv - 0.5)`. -/
def distOf (P : GlslPrims) (uv : Vec2) : ℚ :=
  P.sqrtQ ((uv.x - 1/2) * (uv.x - 1/2) + (uv.y - 1/2) * (uv.y - 1/2))

/-- Stage 1 of the spec's pipeline: XY multiplied by `scale`. -/
def scaleStage (u : Uniforms) (p : Vec3) : Vec3 :=
  ⟨p.x * u.uScale, p.y * u.uScale, p.z⟩

/-- Stage 2: XY multiplied by `1 - lens * dist^2` with `dist = length(uv - 0.5)`. -/
def lensStage (P : GlslPrims) (u : Uniforms) (uv : Vec2) (p : Vec3) : Vec3 :=
  let dist := distOf P uv
  let lensEffect := u.uLens * (dist * dist)
  ⟨p.x * (1 - lensEffect), p.y * (1 - lensEffect), p.z⟩

/-- Stage 3: XY rotated about the origin by `pinch * smoothstep(0, 0.7, dist)`. -/
def pinchStage (P : GlslPrims) (u : Uniforms) (uv : Vec2) (p : Vec3) : Vec3 :=
  let angle := u.uPinch * smoothstep 0 (7/10) (distOf P uv)
  let s := P.sinQ angle
  let c := P.cosQ angle
  ⟨c * p.x + s * p.y, -s * p.x + c * p.y, p.z⟩

/-- Stage 4: `snoise(uv * 3.0 + time * 0.2) * flow` added to Z. -/
def flowStage (u : Uniforms) (uv : Vec2) (p : Vec3) : Vec3 :=
  ⟨p.x, p.y, p.z + snoise ⟨uv.x * 3 + u.uTime * (1/5), uv.y * 3 + u.uTime * (1/5)⟩ * u.uFlow⟩

/-- C7: the vertex shader's displaced local position is exactly the
composition flow ∘ pinch ∘ lens ∘ scale in that order (scale precedes lens
and pinch); the XY result is independent of `flow`; and the Z result is the
original Z plus `snoise(uv*3 + time*0.2) * flow`, independent of the XY
transforms. -/
theorem c7_vertex_pipeline (P : GlslPrims) (u : Uniforms) (position : Vec3) (uv : Vec2) :
    vertexMain P u position uv
        = flowStage u uv (pinchStage P u uv (lensStage P u uv (scaleStage u position)))
    ∧ (∀ g : ℚ,
        (vertexMain P { u with uFlow := g } position uv).x = (vertexMain P u position uv).x
      ∧ (vertexMain P { u with uFlow := g } position uv).y = (vertexMain P u position uv).y)
    ∧ (vertexMain P u position uv).z
        = position.z + snoise ⟨uv.x * 3 + u.uTime * (1/5), uv.y * 3 + u.uTime * (1/5)⟩ * u.uFlow := by
  refine ⟨rfl, fun g => ⟨rfl, rfl⟩, rfl⟩

/-- Translation of the fragment-shader `main` body
(`BendBoxEngine.ts:75-99`): returns `none` when the fragment is discarded,
and `some correctedUv` (the texture sampling coordinate) otherwise. -/
def fragMain (uImageAspect uPlaneAspect : ℚ) (uv : Vec2) : Option Vec2 :=
  let R := uPlaneAspect / uImageAspect
  let scaleX := if R > 1 then 1 / R else 1
  let scaleY := if R > 1 then 1 else R
  let cx := (uv.x - 1/2) / scaleX + 1/2
  let cy := (uv.y - 1/2) / scaleY + 1/2
  if cx < 0 ∨ cx > 1 ∨ cy < 0 ∨ cy > 1 then none else some ⟨cx, cy⟩

/-- Modelled from the spec's words: cover-and-crop remapping
`R = planeAspect/imageAspect`; `scaleVec = R>1 ? (1/R,1) : (1,R)`;
remapped UV `(uv-0.5)/scaleVec + 0.5`. -/
def coverRemapSpec (imageAspect planeAspect : ℚ) (uv : Vec2) : Vec2 :=
  let R := planeAspect / imageAspect
  let scaleX := if R > 1 then 1 / R else 1
  let scaleY := if R > 1 then 1 else R
  ⟨(uv.x - 1/2) / scaleX + 1/2, (uv.y - 1/2) / scaleY + 1/2⟩

/-- Membership of a remapped UV in the unit square `[0,1] × [0,1]`. -/
def insideUnit (v : Vec2) : Prop :=
  0 ≤ v.x ∧ v.x ≤ 1 ∧ 0 ≤ v.y ∧ v.y ≤ 1

/-- C8: in cover-and-crop mode a fragment is discarded iff its remapped UV
falls outside `[0,1]` on either axis; for `imageAspect = 2`,
`planeAspect = 1` the corner fragments at UV `(0,0)` and `(1,1)` are
discarded while the centre fragment `(1/2,1/2)` is sampled. -/
theorem c8_cover_crop_discard :
    (∀ (ia pa : ℚ) (uv : Vec2),
        fragMain ia pa uv = none ↔ ¬ insideUnit (coverRemapSpec ia pa uv))
    ∧ fragMain 2 1 ⟨0, 0⟩ = none
    ∧ fragMain 2 1 ⟨1, 1⟩ = none
    ∧ fragMain 2 1 ⟨1/2, 1/2⟩ = some ⟨1/2, 1/2⟩ := by
  refine ⟨fun ia pa uv => ?_, by norm_num [fragMain], by norm_num [fragMain],
    by norm_num [fragMain]⟩
  simp only [fragMain, coverRemapSpec, insideUnit, not_and_or, not_le, gt_iff_lt]
  split_ifs with h1 h2 h3 <;>
    first
      | exact iff_of_true rfl (by assumption)
      | exact iff_of_false (by simp) (by assumption)

/-! ## Parameter smoothing -/

/-- `THREE.MathUtils.lerp(x, y, t) = (1 - t) * x + t * y`. -/
def lerp (x y t : ℚ) : ℚ := (1 - t) * x + t * y

/-- The engine's target parameters (`targetProps`,
`BendBoxEngine.ts:122,140`). -/
structure TargetProps where
  flow : ℚ
  lens : ℚ
  pinch : ℚ
  scale : ℚ
  motionSpeed : ℚ
deriving DecidableEq, Repr

/-- The engine's smoothed parameters (`animatedProps`,
`BendBoxEngine.ts:123,141`). -/
structure AnimProps where
  flow : ℚ
  lens : ℚ
  pinch : ℚ
  scale : ℚ
deriving DecidableEq, Repr

/-- Translation of the smoothing step of `animate`
(`BendBoxEngine.ts:171-176`, identically `flat.tsx:788-792`): each animated
field is lerped toward its target with factor `targetProps.motionSpeed`. -/
def animateProps (tp : TargetProps) (a : AnimProps) : AnimProps :=
  { flow := lerp a.flow tp.flow tp.motionSpeed
    lens := lerp a.lens tp.lens tp.motionSpeed
    pinch := lerp a.pinch tp.pinch tp.motionSpeed
    scale := lerp a.scale tp.scale tp.motionSpeed }

lemma lerp_sub_target (x c m : ℚ) : lerp x c m - c = (1 - m) * (x - c) := by
  unfold lerp; ring

lemma abs_iterate_lerp (c m : ℚ) (hm : m ≤ 1) (N : ℕ) (x : ℚ) :
    |(fun y => lerp y c m)^[N] x - c| = (1 - m) ^ N * |x - c| := by
  induction N with
  | zero => simp
  | succ n ih =>
      rw [Function.iterate_succ_apply', lerp_sub_target, abs_mul,
        abs_of_nonneg (by linarith : (0:ℚ) ≤ 1 - m), ih, pow_succ]
      ring

lemma iterate_animateProps_fields (tp : TargetProps) (N : ℕ) (a : AnimProps) :
    ((animateProps tp)^[N] a).flow = (fun y => lerp y tp.flow tp.motionSpeed)^[N] a.flow
    ∧ ((animateProps tp)^[N] a).lens = (fun y => lerp y tp.lens tp.motionSpeed)^[N] a.lens
    ∧ ((animateProps tp)^[N] a).pinch = (fun y => lerp y tp.pinch tp.motionSpeed)^[N] a.pinch
    ∧ ((animateProps tp)^[N] a).scale = (fun y => lerp y tp.scale tp.motionSpeed)^[N] a.scale := by
  induction N with
  | zero => exact ⟨rfl, rfl, rfl, rfl⟩
  | succ n ih =>
      obtain ⟨h1, h2, h3, h4⟩ := ih
      refine ⟨?_, ?_, ?_, ?_⟩ <;>
        simp only [Function.iterate_succ_apply', animateProps, h1, h2, h3, h4]

/-- C2: for `motionSpeed ∈ (0,1]`, with constant targets, after `N` frames
of the update `animated += (target - animated) * motionSpeed` each of the
four animated fields satisfies
`|animated_N - target| ≤ |animated_0 - target| * (1 - motionSpeed)^N`. -/
theorem c2_animated_convergence (tp : TargetProps) (a0 : AnimProps) (N : ℕ)
    (hpos : 0 < tp.motionSpeed) (hle : tp.motionSpeed ≤ 1) :
    |((animateProps tp)^[N] a0).flow - tp.flow|
        ≤ |a0.flow - tp.flow| * (1 - tp.motionSpeed) ^ N
    ∧ |((animateProps tp)^[N] a0).lens - tp.lens|
        ≤ |a0.lens - tp.lens| * (1 - tp.motionSpeed) ^ N
    ∧ |((animateProps tp)^[N] a0).pinch - tp.pinch|
        ≤ |a0.pinch - tp.pinch| * (1 - tp.motionSpeed) ^ N
    ∧ |((animateProps tp)^[N] a0).scale - tp.scale|
        ≤ |a0.scale - tp.scale| * (1 - tp.motionSpeed) ^ N := by
  obtain ⟨h1, h2, h3, h4⟩ := iterate_animateProps_fields tp N a0
  rw [h1, h2, h3, h4]
  refine ⟨?_, ?_, ?_, ?_⟩ <;>
    · rw [abs_iterate_lerp _ _ hle, mul_comm]

/-- Concrete target and start values for the C2 witness. -/
def tpW : TargetProps := { flow := 1, lens := 2, pinch := -1, scale := 3, motionSpeed := 1/2 }

/-- Concrete animated start values for the C2 witness. -/
def a0W : AnimProps := { flow := 0, lens := 0, pinch := 0, scale := 1 }

/-- C2 witness: the hypotheses hold at `motionSpeed = 1/2` and the bound is
realised after 2 frames. -/
theorem c2_animated_convergence_witness :
    0 < tpW.motionSpeed ∧ tpW.motionSpeed ≤ 1
    ∧ (|((animateProps tpW)^[2] a0W).flow - tpW.flow|
          ≤ |a0W.flow - tpW.flow| * (1 - tpW.motionSpeed) ^ 2
       ∧ |((animateProps tpW)^[2] a0W).lens - tpW.lens|
          ≤ |a0W.lens - tpW.lens| * (1 - tpW.motionSpeed) ^ 2
       ∧ |((animateProps tpW)^[2] a0W).pinch - tpW.pinch|
          ≤ |a0W.pinch - tpW.pinch| * (1 - tpW.motionSpeed) ^ 2
       ∧ |((animateProps tpW)^[2] a0W).scale - tpW.scale|
          ≤ |a0W.scale - tpW.scale| * (1 - tpW.motionSpeed) ^ 2) :=
  ⟨by norm_num [tpW], by norm_num [tpW],
    c2_animated_convergence tpW a0W 2 (by norm_num [tpW]) (by norm_num [tpW])⟩

/-! ## Engine state

One state structure serves both engine variants.  GPU/DOM side effects are
modelled as logs and counters: `disposedTextures` records every
`texture.dispose()` call, `revokedUrls` every `URL.revokeObjectURL`,
`loggedErrors` every `console.error` in a media-load failure path, and the
`*Count` fields the release actions of `dispose`.  Textures and object
URLs are identified by `Nat` tokens; `videoElement` records whether a
video element is currently attached. -/

structure EngineState where
  targetProps : TargetProps
  animatedProps : AnimProps
  uTime : ℚ
  uFlow : ℚ
  uLens : ℚ
  uPinch : ℚ
  uScale : ℚ
  uTextureVal : Option Nat
  uImageAspect : ℚ
  currentMediaSource : Option Src
  videoElement : Bool
  currentObjectUrl : Option Nat
  nextUrlId : Nat
  revokedUrls : List Nat
  disposedTextures : List Nat
  loadCount : Nat
  loadMediaRequestId : Nat
  loggedErrors : List String
  frameCount : Nat
  isDisposed : Bool
  cancelCount : Nat
  disconnectCount : Nat
  domRemoveCount : Nat
  rendererDisposeCount : Nat
  geometryDisposeCount : Nat
  materialDisposeCount : Nat
deriving DecidableEq, Repr

/-- The caller-supplied prop record (`BendBoxProps`). -/
structure BendBoxProps where
  mediaSource : Src
  flow : ℚ
  lens : ℚ
  pinch : ℚ
  scale : ℚ
  motionSpeed : ℚ
deriving DecidableEq, Repr

/-- Engine state just after construction (`BendBoxEngine.ts:125-169`):
default targets `{flow 0, lens 0, pinch 0, scale 1, motionSpeed 0.075}`,
matching animated values, no texture, image aspect 1, no media source. -/
def initState : EngineState :=
  { targetProps := { flow := 0, lens := 0, pinch := 0, scale := 1, motionSpeed := 3/40 }
    animatedProps := { flow := 0, lens := 0, pinch := 0, scale := 1 }
    uTime := 0, uFlow := 0, uLens := 0, uPinch := 0, uScale := 1
    uTextureVal := none
    uImageAspect := 1
    currentMediaSource := none
    videoElement := false
    currentObjectUrl := none
    nextUrlId := 0
    revokedUrls := []
    disposedTextures := []
    loadCount := 0
    loadMediaRequestId := 0
    loggedErrors := []
    frameCount := 0
    isDisposed := false
    cancelCount := 0
    disconnectCount := 0
    domRemoveCount := 0
    rendererDisposeCount := 0
    geometryDisposeCount := 0
    materialDisposeCount := 0 }

/-- JavaScript truthiness of a media source: the empty string is the only
falsy `string | File` value. -/
def isFalsySrc : Src → Bool
  | .url u => u = ""
  | .file _ _ => false

/-! ### Component variant (`src/components/BendBoxEngine.ts`) -/

/-- Translation of the synchronous body of `loadMedia`
(`BendBoxEngine.ts:212-241,249-250`): dispose whatever texture the uniform
currently holds (without clearing the slot), drop the video element, revoke
a pending object URL, record the new source, create an object URL for a
`File`, then create a video element or start the asynchronous image load.
The asynchronous completions are separate events below.  `loadCount`
counts `loadMedia` invocations. -/
def loadMediaSyncC (src : Src) (s : EngineState) : EngineState :=
  let s1 : EngineState :=
    { s with
      disposedTextures :=
        match s.uTextureVal with
        | some t => t :: s.disposedTextures
        | none => s.disposedTextures
      videoElement := false
      revokedUrls :=
        match s.currentObjectUrl with
        | some u => u :: s.revokedUrls
        | none => s.revokedUrls
      currentObjectUrl := none
      currentMediaSource := some src
      loadCount := s.loadCount + 1 }
  let s2 : EngineState :=
    match src with
    | .file _ _ => { s1 with currentObjectUrl := some s1.nextUrlId, nextUrlId := s1.nextUrlId + 1 }
    | .url _ => s1
  if isVideoSource src then { s2 with videoElement := true } else s2

/-- Translation of the image-load success callback
(`BendBoxEngine.ts:251-255`): unconditionally bind the freshly decoded
texture and its aspect ratio — there is no request-identity or disposal
check in this variant. -/
def completeImageC (tex : Nat) (w h : ℚ) (s : EngineState) : EngineState :=
  { s with uTextureVal := some tex, uImageAspect := w / h }

/-- Translation of `setProps` (`BendBoxEngine.ts:259-268`): reload when the
source differs by identity, then copy the five numeric fields into
`targetProps`. -/
def setPropsC (p : BendBoxProps) (s : EngineState) : EngineState :=
  let s' := if s.currentMediaSource ≠ some p.mediaSource then loadMediaSyncC p.mediaSource s else s
  { s' with
    targetProps :=
      { flow := p.flow, lens := p.lens, pinch := p.pinch, scale := p.scale
        motionSpeed := p.motionSpeed } }

/-- The `setProps` call as seen by the caller: the method body reads the
prop record and never assigns to it, so the caller's record is returned
unchanged alongside the new engine state. -/
def setPropsCallC (s : EngineState) (p : BendBoxProps) : EngineState × BendBoxProps :=
  (setPropsC p s, p)

/-- Translation of `dispose` (`BendBoxEngine.ts:270-291`): a guarded
one-shot release.  Each release action is modelled by its counter;
`uTexture.value?.dispose()` appends to `disposedTextures` without clearing
the slot, and a held object URL is revoked (the field itself is not
cleared by this variant). -/
def disposeC (s : EngineState) : EngineState :=
  if s.isDisposed then s
  else
    { s with
      isDisposed := true
      cancelCount := s.cancelCount + 1
      disconnectCount := s.disconnectCount + 1
      domRemoveCount := s.domRemoveCount + 1
      rendererDisposeCount := s.rendererDisposeCount + 1
      geometryDisposeCount := s.geometryDisposeCount + 1
      disposedTextures :=
        match s.uTextureVal with
        | some t => t :: s.disposedTextures
        | none => s.disposedTextures
      materialDisposeCount := s.materialDisposeCount + 1
      revokedUrls :=
        match s.currentObjectUrl with
        | some u => u :: s.revokedUrls
        | none => s.revokedUrls }

/-! ### Flat variant (`src/flat.tsx`) -/

/-- Translation of `_cleanupPreviousMedia` (`flat.tsx:869-883`): dispose
the bound texture and clear the uniform slot, drop the video element,
revoke and clear the object URL. -/
def cleanupPreviousMediaF (s : EngineState) : EngineState :=
  { s with
    disposedTextures :=
      match s.uTextureVal with
      | some t => t :: s.disposedTextures
      | none => s.disposedTextures
    uTextureVal := none
    videoElement := false
    revokedUrls :=
      match s.currentObjectUrl with
      | some u => u :: s.revokedUrls
      | none => s.revokedUrls
    currentObjectUrl := none }

/-- Translation of the synchronous prefix of `loadMedia`
(`flat.tsx:824-841`): bump `loadMediaRequestId` (the bumped value is the
identifier captured by this request's completion), record the source,
clean up previous media, return early on a falsy source, create an object
URL for a `File`, then start the asynchronous load.  Completion and
failure are the separate events `completeF` / `failF`. -/
def loadMediaF (src : Src) (s : EngineState) : EngineState :=
  let s1 : EngineState :=
    { s with
      loadMediaRequestId := s.loadMediaRequestId + 1
      currentMediaSource := some src
      loadCount := s.loadCount + 1 }
  let s2 := cleanupPreviousMediaF s1
  if isFalsySrc src then { s2 with uTextureVal := none }
  else
    match src with
    | .file _ _ => { s2 with currentObjectUrl := some s2.nextUrlId, nextUrlId := s2.nextUrlId + 1 }
    | .url _ => s2

/-- Translation of the load-success continuation (`flat.tsx:852-858`):
a completion whose captured request identifier no longer matches the
engine's `loadMediaRequestId` — or that arrives after disposal — disposes
its texture and changes nothing else; otherwise the texture and the
image-aspect uniform are updated. -/
def completeF (issuedId : Nat) (tex : Nat) (w h : ℚ) (s : EngineState) : EngineState :=
  if s.isDisposed ∨ issuedId ≠ s.loadMediaRequestId then
    { s with disposedTextures := tex :: s.disposedTextures }
  else
    { s with uTextureVal := some tex, uImageAspect := w / h }

/-- Translation of the `catch` branch of `loadMedia` (`flat.tsx:860-866`):
log the failure, revoke a held object URL, touch nothing else. -/
def failF (err : String) (s : EngineState) : EngineState :=
  { s with
    loggedErrors := err :: s.loggedErrors
    revokedUrls :=
      match s.currentObjectUrl with
      | some u => u :: s.revokedUrls
      | none => s.revokedUrls
    currentObjectUrl := none }

/-- Translation of `animate` (`flat.tsx:784-803`): bail out when disposed,
otherwise advance the smoothed parameters, push them and the clock into
the uniforms, render, and reschedule (`frameCount` counts completed
frames; `t` is the clock reading for this frame). -/
def animateF (t : ℚ) (s : EngineState) : EngineState :=
  if s.isDisposed then s
  else
    let a := animateProps s.targetProps s.animatedProps
    { s with
      animatedProps := a
      uTime := t
      uFlow := a.flow
      uLens := a.lens
      uPinch := a.pinch
      uScale := a.scale
      frameCount := s.frameCount + 1 }

/-! ## Claims about disposal and prop updates -/

lemma loadMediaSyncC_preserved (src : Src) (s : EngineState) :
    (loadMediaSyncC src s).targetProps = s.targetProps
    ∧ (loadMediaSyncC src s).animatedProps = s.animatedProps
    ∧ (loadMediaSyncC src s).uTime = s.uTime
    ∧ (loadMediaSyncC src s).uFlow = s.uFlow
    ∧ (loadMediaSyncC src s).uLens = s.uLens
    ∧ (loadMediaSyncC src s).uPinch = s.uPinch
    ∧ (loadMediaSyncC src s).uScale = s.uScale
    ∧ (loadMediaSyncC src s).uTextureVal = s.uTextureVal
    ∧ (loadMediaSyncC src s).uImageAspect = s.uImageAspect
    ∧ (loadMediaSyncC src s).currentMediaSource = some src
    ∧ (loadMediaSyncC src s).loadCount = s.loadCount + 1 := by
  unfold loadMediaSyncC
  cases src <;> dsimp only <;> split <;>
    exact ⟨rfl, rfl, rfl, rfl, rfl, rfl, rfl, rfl, rfl, rfl, rfl⟩

lemma loadMediaSyncC_disposed (src : Src) (s : EngineState) :
    (loadMediaSyncC src s).disposedTextures
      = match s.uTextureVal with
        | some t => t :: s.disposedTextures
        | none => s.disposedTextures := by
  unfold loadMediaSyncC
  cases src <;> dsimp only <;> split <;> rfl

/-- C3: `dispose` is idempotent — for every engine state, a second call
produces exactly the state of the first call, and on an already-disposed
state `dispose` performs no release action at all (it is the identity, so
no counter advances and nothing is disposed or revoked a second time). -/
theorem c3_dispose_idempotent (s : EngineState) :
    disposeC (disposeC s) = disposeC s ∧ (s.isDisposed = true → disposeC s = s) := by
  by_cases h : s.isDisposed
  · simp [disposeC, h]
  · constructor
    · simp [disposeC, h]
    · intro hh; exact absurd hh (by simp [h])

/-- An engine state that has already been disposed. -/
def sDisposedW : EngineState := { initState with isDisposed := true }

/-- C3 witness: on a concrete already-disposed state the second `dispose`
is the identity. -/
theorem c3_dispose_idempotent_witness : disposeC sDisposedW = sDisposedW :=
  (c3_dispose_idempotent sDisposedW).2 rfl

/-- C9: `setProps` copies the five numeric fields into `targetProps`
unconditionally; it leaves the animated parameters and every shader
uniform value untouched within the call; it returns the caller's record
unmutated; and when the supplied media source is identical to the current
one the whole state changes only in `targetProps`. -/
theorem c9_setProps_contract (s : EngineState) (p : BendBoxProps) :
    (setPropsC p s).targetProps
        = { flow := p.flow, lens := p.lens, pinch := p.pinch, scale := p.scale
            motionSpeed := p.motionSpeed }
    ∧ ((setPropsC p s).animatedProps = s.animatedProps
        ∧ (setPropsC p s).uTime = s.uTime
        ∧ (setPropsC p s).uFlow = s.uFlow
        ∧ (setPropsC p s).uLens = s.uLens
        ∧ (setPropsC p s).uPinch = s.uPinch
        ∧ (setPropsC p s).uScale = s.uScale
        ∧ (setPropsC p s).uTextureVal = s.uTextureVal
        ∧ (setPropsC p s).uImageAspect = s.uImageAspect)
    ∧ (setPropsCallC s p).2 = p
    ∧ (s.currentMediaSource = some p.mediaSource →
        setPropsC p s
          = { s with
              targetProps :=
                { flow := p.flow, lens := p.lens, pinch := p.pinch, scale := p.scale
                  motionSpeed := p.motionSpeed } }) := by
  by_cases hm : s.currentMediaSource = some p.mediaSource
  · refine ⟨?_, ⟨?_, ?_, ?_, ?_, ?_, ?_, ?_, ?_⟩, rfl, fun _ => ?_⟩ <;>
      simp [setPropsC, hm]
  · obtain ⟨h1, h2, h3, h4, h5, h6, h7, h8, h9, _, _⟩ :=
      loadMediaSyncC_preserved p.mediaSource s
    refine ⟨?_, ⟨?_, ?_, ?_, ?_, ?_, ?_, ?_, ?_⟩, rfl, fun hh => absurd hh hm⟩ <;>
      simp [setPropsC, hm, h1, h2, h3, h4, h5, h6, h7, h8, h9]

/-- An engine state whose current media source is the URL `a.jpg`. -/
def s9W : EngineState := { initState with currentMediaSource := some (Src.url "a.jpg") }

/-- A prop record naming the same media source `a.jpg`. -/
def p9W : BendBoxProps :=
  { mediaSource := Src.url "a.jpg", flow := 1/10, lens := 1/5, pinch := 0, scale := 1
    motionSpeed := 3/40 }

/-- C9 witness: with an identical media source the call changes only
`targetProps`. -/
theorem c9_setProps_contract_witness :
    setPropsC p9W s9W
      = { s9W with
          targetProps :=
            { flow := p9W.flow, lens := p9W.lens, pinch := p9W.pinch, scale := p9W.scale
              motionSpeed := p9W.motionSpeed } } :=
  (c9_setProps_contract s9W p9W).2.2.2 rfl

lemma setPropsC_sets_source (p : BendBoxProps) (s : EngineState) :
    (setPropsC p s).currentMediaSource = some p.mediaSource := by
  by_cases hm : s.currentMediaSource = some p.mediaSource
  · simp [setPropsC, hm]
  · simp [setPropsC, hm, (loadMediaSyncC_preserved p.mediaSource s).2.2.2.2.2.2.2.2.2.1]

lemma setPropsC_loadCount_of_same (p : BendBoxProps) (s : EngineState)
    (h : s.currentMediaSource = some p.mediaSource) :
    (setPropsC p s).loadCount = s.loadCount := by
  simp [setPropsC, h]

/-- C10: repeated `setProps` calls carrying the identical media source
start at most one `loadMedia`: the first call accounts for at most one
invocation, and every further call with the same source starts none,
because `loadMedia` records `currentMediaSource` synchronously before any
asynchronous step. -/
theorem c10_no_duplicate_loads (s : EngineState) (p : BendBoxProps) (n : ℕ) :
    ((setPropsC p)^[n + 1] s).loadCount = (setPropsC p s).loadCount
    ∧ (setPropsC p s).loadCount ≤ s.loadCount + 1 := by
  constructor
  · induction n with
    | zero => rfl
    | succ m ih =>
        rw [Function.iterate_succ_apply',
          setPropsC_loadCount_of_same p _ (by
            rw [Function.iterate_succ_apply']
            exact setPropsC_sets_source p _)]
        exact ih
  · by_cases hm : s.currentMediaSource = some p.mediaSource
    · rw [setPropsC_loadCount_of_same p s hm]; omega
    · have := (loadMediaSyncC_preserved p.mediaSource s).2.2.2.2.2.2.2.2.2.2
      simp [setPropsC, hm, this]

/-! ## Claims about media load completion and failure -/

lemma loadMediaF_fields (src : Src) (s : EngineState) :
    (loadMediaF src s).uTextureVal = none
    ∧ (loadMediaF src s).loggedErrors = s.loggedErrors
    ∧ (loadMediaF src s).isDisposed = s.isDisposed
    ∧ (loadMediaF src s).frameCount = s.frameCount
    ∧ (∀ t, s.uTextureVal = some t →
        (loadMediaF src s).disposedTextures = t :: s.disposedTextures) := by
  unfold loadMediaF cleanupPreviousMediaF
  cases src <;> dsimp only <;> split <;>
    exact ⟨rfl, rfl, rfl, rfl, fun t ht => by simp [ht]⟩

/-- C1: issuing `load(A)` then `load(B)` before `A` resolves, then letting
`B` and finally the stale `A` resolve.  In the component variant
(`BendBoxEngine.ts`), which has no request-identity check, `A`'s stale
completion overwrites `B`'s texture and aspect in the uniforms and nothing
is disposed — contradicting the supersession rule the claim states.  In
the flat variant (`flat.tsx`), which carries `loadMediaRequestId`, the
same schedule leaves `B`'s texture and aspect in the uniforms and disposes
`A`'s texture immediately, exactly as the claim demands. -/
theorem c1_stale_load_applied_in_component_variant :
    (completeImageC 101 4 3 (completeImageC 102 16 9
        (loadMediaSyncC (Src.url "b.jpg") (loadMediaSyncC (Src.url "a.jpg") initState)))).uTextureVal
      = some 101
    ∧ (completeImageC 101 4 3 (completeImageC 102 16 9
        (loadMediaSyncC (Src.url "b.jpg") (loadMediaSyncC (Src.url "a.jpg") initState)))).uImageAspect
      = 4 / 3
    ∧ (completeImageC 101 4 3 (completeImageC 102 16 9
        (loadMediaSyncC (Src.url "b.jpg") (loadMediaSyncC (Src.url "a.jpg") initState)))).disposedTextures
      = []
    ∧ (completeF 1 101 4 3 (completeF 2 102 16 9
        (loadMediaF (Src.url "b.jpg") (loadMediaF (Src.url "a.jpg") initState)))).uTextureVal
      = some 102
    ∧ (completeF 1 101 4 3 (completeF 2 102 16 9
        (loadMediaF (Src.url "b.jpg") (loadMediaF (Src.url "a.jpg") initState)))).uImageAspect
      = 16 / 9
    ∧ (completeF 1 101 4 3 (completeF 2 102 16 9
        (loadMediaF (Src.url "b.jpg") (loadMediaF (Src.url "a.jpg") initState)))).disposedTextures
      = [101] := by
  have hAu : (loadMediaSyncC (Src.url "a.jpg") initState).uTextureVal = none :=
    (loadMediaSyncC_preserved (Src.url "a.jpg") initState).2.2.2.2.2.2.2.1
  have hA : (loadMediaSyncC (Src.url "a.jpg") initState).disposedTextures = [] := by
    rw [loadMediaSyncC_disposed]; rfl
  refine ⟨rfl, rfl, ?_, rfl, rfl, rfl⟩
  show (loadMediaSyncC (Src.url "b.jpg") (loadMediaSyncC (Src.url "a.jpg") initState)).disposedTextures = []
  rw [loadMediaSyncC_disposed, hAu, hA]

/-- C4 counterexample: in the flat variant, after an image texture 201 is
displayed, a failing load of a new source does NOT leave texture 201 in
place — 201 was disposed and the uniform cleared synchronously when the
new load began, so after the failure the texture uniform is absent. -/
theorem c4_previous_texture_not_left_in_place :
    (completeF 1 201 2 1 (loadMediaF (Src.url "a.jpg") initState)).uTextureVal = some 201
    ∧ (failF "Failed to load image. Check CORS policy or URL: bad.jpg"
        (loadMediaF (Src.url "bad.jpg")
          (completeF 1 201 2 1 (loadMediaF (Src.url "a.jpg") initState)))).uTextureVal
      ≠ some 201
    ∧ 201 ∈ (failF "Failed to load image. Check CORS policy or URL: bad.jpg"
        (loadMediaF (Src.url "bad.jpg")
          (completeF 1 201 2 1 (loadMediaF (Src.url "a.jpg") initState)))).disposedTextures := by
  refine ⟨rfl, ?_, ?_⟩
  · intro h; exact Option.noConfusion h
  · show 201 ∈ [201]
    exact List.mem_singleton.mpr rfl

/-- C4 (amended): for every media source whose load fails, the flat engine
logs the error, stays undisposed, and the render loop keeps producing
frames; the texture uniform is left absent (`null`) after the failure —
the previously displayed texture is not left in place, having been
disposed and its uniform slot cleared synchronously when the load began. -/
theorem c4_load_failure_amended (s : EngineState) (src : Src) (err : String)
    (hrun : s.isDisposed = false) :
    (loadMediaF src s).uTextureVal = none
    ∧ (∀ t, s.uTextureVal = some t →
        t ∈ (failF err (loadMediaF src s)).disposedTextures)
    ∧ (failF err (loadMediaF src s)).uTextureVal = none
    ∧ (failF err (loadMediaF src s)).loggedErrors = err :: s.loggedErrors
    ∧ (failF err (loadMediaF src s)).isDisposed = false
    ∧ (∀ tm : ℚ, (animateF tm (failF err (loadMediaF src s))).frameCount
        = (failF err (loadMediaF src s)).frameCount + 1) := by
  obtain ⟨hA, hB, hC, _, hE⟩ := loadMediaF_fields src s
  have hdisp : (failF err (loadMediaF src s)).isDisposed = false := by
    show (loadMediaF src s).isDisposed = false
    rw [hC, hrun]
  refine ⟨hA, ?_, ?_, ?_, hdisp, ?_⟩
  · intro t ht
    show t ∈ (loadMediaF src s).disposedTextures
    rw [hE t ht]
    exact List.mem_cons_self _ _
  · show (loadMediaF src s).uTextureVal = none
    exact hA
  · show err :: (loadMediaF src s).loggedErrors = err :: s.loggedErrors
    rw [hB]
  · intro tm
    simp [animateF, hdisp]

/-- An engine state displaying image texture 201, for the C4 witness. -/
def c4sW : EngineState := completeF 1 201 2 1 (loadMediaF (Src.url "a.jpg") initState)

/-- C4 witness: the amended behaviour realised at the concrete failing
trace — texture absent, error logged, engine still running, next frame
still produced. -/
theorem c4_load_failure_amended_witness :
    c4sW.isDisposed = false ∧ c4sW.uTextureVal = some 201
    ∧ 201 ∈ (failF "Failed to load image. Check CORS policy or URL: bad.jpg"
        (loadMediaF (Src.url "bad.jpg") c4sW)).disposedTextures
    ∧ (failF "Failed to load image. Check CORS policy or URL: bad.jpg"
        (loadMediaF (Src.url "bad.jpg") c4sW)).uTextureVal = none
    ∧ (animateF 1 (failF "Failed to load image. Check CORS policy or URL: bad.jpg"
        (loadMediaF (Src.url "bad.jpg") c4sW))).frameCount
      = (failF "Failed to load image. Check CORS policy or URL: bad.jpg"
        (loadMediaF (Src.url "bad.jpg") c4sW)).frameCount + 1 :=
  ⟨rfl, rfl,
    (c4_load_failure_amended c4sW (Src.url "bad.jpg")
      "Failed to load image. Check CORS policy or URL: bad.jpg" rfl).2.1 201 rfl,
    (c4_load_failure_amended c4sW (Src.url "bad.jpg")
      "Failed to load image. Check CORS policy or URL: bad.jpg" rfl).2.2.1,
    (c4_load_failure_amended c4sW (Src.url "bad.jpg")
      "Failed to load image. Check CORS policy or URL: bad.jpg" rfl).2.2.2.2.2 1⟩

/-! ## Viewport / resize model -/

/-- JavaScript float division producing `none` for a non-finite result
(`x/0` is `Infinity` or `NaN`). -/
def jsDivQ (a b : ℚ) : Option ℚ := if b = 0 then none else some (a / b)

/-- Camera/plane slice of the engine state touched by resize handling.
`none` in an `Option ℚ` field stands for a non-finite float. -/
structure ViewState where
  isDisposed : Bool
  cameraAspect : Option ℚ
  rendererW : ℚ
  rendererH : ℚ
  meshScaleX : Option ℚ
  meshScaleY : ℚ
  uPlaneAspect : Option ℚ
deriving DecidableEq, Repr

/-- Translation of `fitPlaneToView` (`BendBoxEngine.ts:203-210`):
`height = 2 * tan(vFov/2) * dist` with `dist = 1`; `width = height *
aspect`; mesh scale `(width/2, height/2)`; `uPlaneAspect = width/height`.
`tanHalfVFov` stands for the transcendental constant `Math.tan(vFov/2)`;
every theorem below holds for all its values. -/
def fitPlaneToView (tanHalfVFov : ℚ) (s : ViewState) : ViewState :=
  let dist : ℚ := 1
  let height := 2 * tanHalfVFov * dist
  let width := Option.map (fun a => height * a) s.cameraAspect
  { s with
    meshScaleX := Option.map (fun w => w / 2) width
    meshScaleY := height / 2
    uPlaneAspect := match width with | some w => jsDivQ w height | none => none }

/-- Translation of the deferred body of `onResize`
(`BendBoxEngine.ts:188-201`): after the animation-frame deferral, if not
disposed, set `camera.aspect = clientWidth / clientHeight`
unconditionally — there is no zero-size guard — resize the renderer and
refit the plane. -/
def onResizeStep (tanHalfVFov w h : ℚ) (s : ViewState) : ViewState :=
  if s.isDisposed then s
  else fitPlaneToView tanHalfVFov { s with cameraAspect := jsDivQ w h, rendererW := w, rendererH := h }

/-- A live view state for a 400×300 container. -/
def view0 : ViewState :=
  { isDisposed := false, cameraAspect := some (4/3), rendererW := 400, rendererH := 300
    meshScaleX := some 1, meshScaleY := 1, uPlaneAspect := some (4/3) }

/-- C5: contrary to the claim, a resize reporting zero width and height is
NOT skipped — the engine assigns `camera.aspect = 0/0` (non-finite) and
runs the full recomputation, changing the state; only the next valid
resize restores a finite aspect. -/
theorem c5_zero_size_resize_not_skipped (t : ℚ) :
    (onResizeStep t 0 0 view0).cameraAspect = none
    ∧ onResizeStep t 0 0 view0 ≠ view0
    ∧ (onResizeStep t 400 300 (onResizeStep t 0 0 view0)).cameraAspect = some (4/3) := by
  have hA : (onResizeStep t 0 0 view0).cameraAspect = none := by
    simp [onResizeStep, fitPlaneToView, view0, jsDivQ]
  refine ⟨hA, fun h => ?_, ?_⟩
  · rw [h] at hA
    simp [view0] at hA
  · simp [onResizeStep, fitPlaneToView, view0, jsDivQ]
    norm_num
